import Mathlib

/-!
Shallow embedding of `src/packages/next-swc/crates/next-core/src/next_font/google/font_fallback.rs`.

Modelling conventions:
* Rust `f64` values are modelled by `ℚ` (exact arithmetic); `u32` by `Nat`; `i32` by `Int`.
  The values flowing through this code (font design-unit metrics) are small, so no
  wrap-around is reachable and `Nat`/`Int` are faithful.
* The `HashMap<String, FontMetricsMapEntry>` is modelled as an association list with
  unique keys; `HashMap::get` becomes `List.lookup`.
* The regex `(?:^\w|[A-Z]|\b\w)` is modelled by an explicit character scan over the ASCII
  classes (`\w` = alphanumeric or underscore, `[A-Z]` = ASCII uppercase), matching the
  character classes the font-family inputs exercise.  Rust's `Regex::replace` replaces
  only the leftmost match, which is what `replace_first_match` below does.
* `anyhow::Result<T>` is modelled by `Except String T`; the external JSON loader's
  result by `Except Unit FontMetricsMap`.
-/

namespace NextFontFallback

/-- An entry in the Google fonts metrics map (`FontMetricsMapEntry` in the source;
field-for-field translation, `f64` as `ℚ`). -/
structure FontMetricsMapEntry where
  family_name : String
  category : String
  cap_height : Int
  ascent : Int
  descent : Int
  line_gap : Nat
  units_per_em : Nat
  x_height : Int
  x_width_avg : ℚ
deriving DecidableEq

/-- The metrics map (`FontMetricsMap` in the source wraps a `HashMap`); modelled as an
association list with unique keys. -/
abbrev FontMetricsMap := List (String × FontMetricsMapEntry)

/-- Modelled from the spec: the `FontAdjustment` record declared in
`next_font/font_fallback.rs` (not under `src/`), as used by the constructor at lines
164–169 of the source file: four floating-point fields.  Polymorphic in the number type
so that statements about the exact arrangement of divisions and multiplications can be
made over an arbitrary `Mul`/`Div` carrier. -/
structure FontAdjustment (α : Type) where
  ascent : α
  descent : α
  line_gap : α
  size_adjust : α
deriving DecidableEq

/-- Modelled from the spec: the built-in constant fallback font record
(`DefaultFallbackFont` in `next_font/font_fallback.rs`, not under `src/`).  The source
file accesses fields `name`, `x_width_avg` and `units_per_em` of the two constants. -/
structure DefaultFallbackFont where
  name : String
  x_width_avg : ℚ
  units_per_em : Nat
deriving DecidableEq

/-- Modelled from the spec: `DEFAULT_SERIF_FONT` (not under `src/`).  Name
"Times New Roman" and `units_per_em = 2048` per the spec; the average width is the
value that reproduces the expected `sizeAdjust ≈ 1.134135387462914` of the source's
serif test (the spec's `≈1224.666` figure is inconsistent with its own expected
outputs in §8, which the source tests pin down). -/
def DEFAULT_SERIF_FONT : DefaultFallbackFont :=
  { name := "Times New Roman",
    x_width_avg := (8543953488372093 : ℚ) / 10000000000000,
    units_per_em := 2048 }

/-- Modelled from the spec: `DEFAULT_SANS_SERIF_FONT` (not under `src/`); name "Arial",
`units_per_em = 2048`, average width reproducing the source's sans-serif test
(`sizeAdjust ≈ 1.0389481114147647`). -/
def DEFAULT_SANS_SERIF_FONT : DefaultFallbackFont :=
  { name := "Arial",
    x_width_avg := (9345116279069767 : ℚ) / 10000000000000,
    units_per_em := 2048 }

/-- The `Fallback` struct of the source file. -/
structure Fallback where
  font_family : String
  adjustment : Option (FontAdjustment ℚ)
deriving DecidableEq

/-- Modelled from the spec: `AutomaticFontFallback` (declared in
`next_font/font_fallback.rs`, not under `src/`), with the three fields the source file
populates at lines 75–83.  The `Vc` string handles are modelled as plain strings. -/
structure AutomaticFontFallback where
  scoped_font_family : String
  local_font_family : String
  adjustment : Option (FontAdjustment ℚ)
deriving DecidableEq

/-- Modelled from the spec: the `FontFallback` result enum (declared in
`next_font/font_fallback.rs`, not under `src/`); the source file uses its three
constructors `Manual`, `Automatic` and `Error` (the spec's `Manual` / `Automatic` /
`Unavailable`). -/
inductive FontFallback where
  | Manual : List String → FontFallback
  | Automatic : AutomaticFontFallback → FontFallback
  | Error : FontFallback
deriving DecidableEq

/-- Modelled from the spec: the diagnostic severity; the source file only ever uses
`IssueSeverity::Warning`. -/
inductive IssueSeverity where
  | Warning
  | Error
deriving DecidableEq

/-- Modelled from the spec: the `NextFontIssue` diagnostic record the orchestrator emits
(lines 88–101 of the source).  The filesystem-path context field is an external handle
and is not modelled; title, description and severity are. -/
structure NextFontIssue where
  title : String
  description : String
  severity : IssueSeverity
deriving DecidableEq

/-- The relevant options of `NextFontGoogleOptions` read by the source file:
`font_family`, `fallback` (the manual fallback list) and `adjust_font_fallback`. -/
structure NextFontGoogleOptions where
  font_family : String
  fallback : Option (List String)
  adjust_font_fallback : Bool
deriving DecidableEq

/-- ASCII reading of the regex word-character class `\w` (alphanumeric or underscore). -/
def isWordChar (c : Char) : Bool :=
  c.isAlphanum || c == '_'

/-- Whether the character preceding the current scan position is a word character
(`false` at the start of the string). -/
def prevIsWordChar : Option Char → Bool
  | none => false
  | some p => isWordChar p

/-- One position of the regex `(?:^\w|[A-Z]|\b\w)`: it matches a single character `c`
(with preceding character `prev`) iff `c` is an ASCII uppercase letter, or `c` is a word
character at the string start or right after a non-word character (the `^\w` and `\b\w`
alternatives coincide at the string start). -/
def regexMatchesAt (prev : Option Char) (c : Char) : Bool :=
  c.isUpper || (isWordChar c && !prevIsWordChar prev)

/-- Rust's `Regex::replace` applied to `FALLBACK_FONT_NAME` with the source's closure:
it replaces only the leftmost match — a single character — and, since the pattern has no
capture groups, the closure lower-cases that one matched character (`i == 0` is the whole
match).  The rest of the string is returned unchanged. -/
def replace_first_match : Option Char → List Char → List Char
  | _, [] => []
  | prev, c :: cs =>
    if regexMatchesAt prev c then
      c.toLower :: cs
    else
      c :: replace_first_match ( some c) cs

/-- `format_fallback_font_name` of the source file: replace the leftmost regex match by
its lowercase form, then drop every whitespace character (`String::retain`). -/
def format_fallback_font_name (font_family : String) : String :=
  String.mk ((replace_first_match none font_family.data).filter (fun c => !c.isWhitespace))

/-- The adjustment computation of `lookup_fallback`'s `adjust` branch (source lines
156–168), factored as a function and kept polymorphic in the number type with bare `Mul`
and `Div` so that the exact arrangement of the divisions and multiplications — the order
of floating-point operations — is captured by the term structure.  Arguments are the
already-cast operands, in source order: the requested font's `x_width_avg`,
`units_per_em`, `ascent`, `descent`, `line_gap`, then the fallback font's `x_width_avg`
and `units_per_em`. -/
def calc_font_adjustment {α : Type} [Mul α] [Div α]
    (m_x_width_avg m_units_per_em m_ascent m_descent m_line_gap
      f_x_width_avg f_units_per_em : α) : FontAdjustment α :=
  let main_font_avg_width := m_x_width_avg / m_units_per_em
  let fallback_font_avg_width := f_x_width_avg / f_units_per_em
  let size_adjust := main_font_avg_width / fallback_font_avg_width
  let ascent := m_ascent / (m_units_per_em * size_adjust)
  let descent := m_descent / (m_units_per_em * size_adjust)
  let line_gap := m_line_gap / (m_units_per_em * size_adjust)
  { ascent := ascent, descent := descent, line_gap := line_gap, size_adjust := size_adjust }

/-- `calc_font_adjustment` instantiated at `ℚ` on a metrics entry and a fallback font,
with the integer casts the source performs (`as f64`). -/
def entry_adjustment (metrics : FontMetricsMapEntry) (fallback : DefaultFallbackFont) :
    FontAdjustment ℚ :=
  calc_font_adjustment metrics.x_width_avg (metrics.units_per_em : ℚ) (metrics.ascent : ℚ)
    (metrics.descent : ℚ) (metrics.line_gap : ℚ) fallback.x_width_avg
    (fallback.units_per_em : ℚ)

/-- `lookup_fallback` of the source file: normalize the name, look it up in the metrics
map (failing with the `anyhow` context message when absent), choose the serif or
sans-serif constant by the entry's `category`, and compute the adjustment exactly when
`adjust` is set. -/
def lookup_fallback (font_family : String) (font_metrics_map : FontMetricsMap)
    (adjust : Bool) : Except String Fallback :=
  let font_family := format_fallback_font_name font_family
  match List.lookup font_family font_metrics_map with
  | none => Except.error "Font not found in metrics"
  | some metrics =>
    let fallback :=
      if metrics.category = "serif" then DEFAULT_SERIF_FONT else DEFAULT_SANS_SERIF_FONT
    let adjustment :=
      if adjust then some (entry_adjustment metrics fallback) else none
    Except.ok { font_family := fallback.name, adjustment := adjustment }

/-- `get_font_fallback` of the source file.  The external collaborators are passed in:
`metrics_json` is the (already awaited) result of `load_next_json`,
`get_scoped_font_family` the external scoped-name generator applied to the family name
and the request hash.  The returned list collects the diagnostics emitted through the
issue sink (the source emits exactly one, in the font-not-found branch). -/
def get_font_fallback (options : NextFontGoogleOptions)
    (metrics_json : Except Unit FontMetricsMap)
    (get_scoped_font_family : String → Nat → String) (request_hash : Nat) :
    FontFallback × List NextFontIssue :=
  match options.fallback with
  | some fallback => (FontFallback.Manual fallback, [])
  | none =>
    match metrics_json with
    | Except.ok metrics => (
      match lookup_fallback options.font_family metrics options.adjust_font_fallback with
      | Except.ok fallback =>
        (FontFallback.Automatic
          { scoped_font_family := get_scoped_font_family options.font_family request_hash,
            local_font_family := fallback.font_family,
            adjustment := fallback.adjustment }, [])
      | Except.error _ =>
        (FontFallback.Error,
          [ { title := "Failed to find font override values for font `" ++
                options.font_family ++ "`",
              description := "Skipping generating a fallback font.",
              severity := IssueSeverity.Warning } ]))
    | Except.error _ => (FontFallback.Error, [])

/-- The metrics entry of the source's sans-serif test (`"inter"`). -/
def interEntry : FontMetricsMapEntry :=
  { family_name := "Inter", category := "sans-serif", cap_height := 2048, ascent := 2728,
    descent := -680, line_gap := 0, units_per_em := 2816, x_height := 1536,
    x_width_avg := 1335 }

/-- A one-entry metrics map keyed by the normalized name, as in the source's tests. -/
def interTable : FontMetricsMap := [ ("inter", interEntry) ]

/-- The metrics entry of the source's serif test (`"robotoSlab"`). -/
def robotoSlabEntry : FontMetricsMapEntry :=
  { family_name := "Roboto Slab", category := "serif", cap_height := 1456, ascent := 2146,
    descent := -555, line_gap := 0, units_per_em := 2048, x_height := 1082,
    x_width_avg := 969 }

/-- A one-entry metrics map for the serif test. -/
def robotoSlabTable : FontMetricsMap := [ ("robotoSlab", robotoSlabEntry) ]

/-- A constant stand-in for the external scoped-family-name generator. -/
def noScope : String → Nat → String := fun _ _ => "scoped"

/-- A metrics entry with an unrecognized `category` value (not the literal "serif"). -/
def weirdEntry : FontMetricsMapEntry :=
  { family_name := "Weird", category := "Serif", cap_height := 0, ascent := 1000,
    descent := -200, line_gap := 10, units_per_em := 1000, x_height := 500,
    x_width_avg := 450 }

/-- A one-entry metrics map holding `weirdEntry`. -/
def weirdTable : FontMetricsMap := [ ("weird", weirdEntry) ]

/-- A metrics entry whose `x_width_avg` is zero, driving the computed `size_adjust` to
zero and the three overrides into division by zero. -/
def zeroWidthEntry : FontMetricsMapEntry :=
  { family_name := "Zero", category := "sans-serif", cap_height := 0, ascent := 800,
    descent := -200, line_gap := 0, units_per_em := 1000, x_height := 0,
    x_width_avg := 0 }

/-- A one-entry metrics map holding `zeroWidthEntry`. -/
def zeroWidthTable : FontMetricsMap := [ ("zero", zeroWidthEntry) ]

/-- A metrics entry with a negative (hence nonzero) `x_width_avg`. -/
def negEntry : FontMetricsMapEntry :=
  { family_name := "Neg", category := "sans-serif", cap_height := 0, ascent := 1000,
    descent := -200, line_gap := 0, units_per_em := 2048, x_height := 0,
    x_width_avg := -1 }

/-- A fallback-font record with positive `x_width_avg`. -/
def posFallback : DefaultFallbackFont :=
  { name := "Pos", x_width_avg := 1, units_per_em := 2048 }

/-- C1: over an arbitrary carrier with bare multiplication and division (so no algebraic
law can conflate differently ordered computations), the Adjustment Calculator returns
exactly the four claimed values: `size_adjust` is `(requested.xWidthAvg /
requested.unitsPerEm) / (fallback.xWidthAvg / fallback.unitsPerEm)`, and ascent, descent
and line gap are the corresponding requested metric divided by `requested.unitsPerEm *
size_adjust`, in precisely that arrangement of operations. -/
theorem c1_adjustment_operation_order {α : Type} [Mul α] [Div α]
    (m_x_width_avg m_units_per_em m_ascent m_descent m_line_gap
      f_x_width_avg f_units_per_em : α) :
    calc_font_adjustment m_x_width_avg m_units_per_em m_ascent m_descent m_line_gap
        f_x_width_avg f_units_per_em =
      { ascent := m_ascent / (m_units_per_em *
          ((m_x_width_avg / m_units_per_em) / (f_x_width_avg / f_units_per_em))),
        descent := m_descent / (m_units_per_em *
          ((m_x_width_avg / m_units_per_em) / (f_x_width_avg / f_units_per_em))),
        line_gap := m_line_gap / (m_units_per_em *
          ((m_x_width_avg / m_units_per_em) / (f_x_width_avg / f_units_per_em))),
        size_adjust := (m_x_width_avg / m_units_per_em) /
          (f_x_width_avg / f_units_per_em) } := rfl

/-- C2 (code bug): the Name Normalizer does not upper-case later word-initial matches —
Rust's `Regex::replace` rewrites only the leftmost match, and the replacement closure
lower-cases it — so the all-lowercase multi-word family name "roboto slab" normalizes to
"robotoslab" instead of the camelCase key "robotoSlab", and its lookup against a table
keyed by the camelCase identifier fails. -/
theorem c2_lowercase_multiword_normalization_bug :
    format_fallback_font_name "roboto slab" = "robotoslab" ∧
    format_fallback_font_name "roboto slab" ≠ "robotoSlab" ∧
    lookup_fallback "roboto slab" robotoSlabTable true =
      Except.error "Font not found in metrics" :=
  ⟨ rfl, by decide, rfl⟩

/-- C3 (counterexample): with a manual fallback list that is present but empty, the
orchestrator still returns `Manual([])` — identically whether the metrics table loads
(and contains the requested font) or fails to load — so it does not proceed to the
metrics table as the claim states, and the result is neither the `Automatic` value the
table would produce nor `Unavailable`. -/
theorem c3_empty_manual_list_counterexample :
    get_font_fallback
        { font_family := "Inter", fallback := some [], adjust_font_fallback := false }
        (Except.ok interTable) noScope 0 = (FontFallback.Manual [], []) ∧
    get_font_fallback
        { font_family := "Inter", fallback := some [], adjust_font_fallback := false }
        (Except.error ()) noScope 0 = (FontFallback.Manual [], []) ∧
    FontFallback.Manual [] ≠ FontFallback.Error ∧
    FontFallback.Manual [] ≠ FontFallback.Automatic
      { scoped_font_family := "scoped", local_font_family := "Arial", adjustment := none } :=
  ⟨ rfl, rfl, by decide, by decide⟩

/-- C3 (amended): the orchestrator returns `Manual(list)` whenever
`config.manualFallbackList` is present — even when the list is empty — regardless of the
metrics-table content or the `adjustFontFallback` value (the result does not depend on
the loader's outcome at all); only when the list is absent does it proceed to the
metrics table. -/
theorem c3_manual_list_present_amended (ff : String) (l : List String) (adjust : Bool)
    (r r' : Except Unit FontMetricsMap) (g : String → Nat → String) (n : Nat) :
    get_font_fallback { font_family := ff, fallback := some l, adjust_font_fallback := adjust }
        r g n = (FontFallback.Manual l, []) ∧
    get_font_fallback { font_family := ff, fallback := some l, adjust_font_fallback := adjust }
        r g n =
      get_font_fallback { font_family := ff, fallback := some l, adjust_font_fallback := adjust }
        r' g n :=
  ⟨ rfl, rfl⟩

/-- C4: for every font family found in the metrics table, the resolver chooses
`DEFAULT_SERIF_FONT` exactly when the entry's `category` equals the literal "serif" and
`DEFAULT_SANS_SERIF_FONT` for every other category string, and returns that constant's
name (with the adjustment computed against the same chosen constant iff `adjust`). -/
theorem c4_category_selects_fallback (font_family : String)
    (font_metrics_map : FontMetricsMap) (adjust : Bool) (e : FontMetricsMapEntry)
    (hfind : List.lookup (format_fallback_font_name font_family) font_metrics_map = some e) :
    lookup_fallback font_family font_metrics_map adjust = Except.ok
      { font_family :=
          (if e.category = "serif" then DEFAULT_SERIF_FONT else DEFAULT_SANS_SERIF_FONT).name,
        adjustment := if adjust then
            some (entry_adjustment e
              (if e.category = "serif" then DEFAULT_SERIF_FONT else DEFAULT_SANS_SERIF_FONT))
          else none } := by
  simp only [lookup_fallback, hfind]

/-- Witness for C4 at a concrete input with a malformed category value ("Serif" with a
capital letter), which is treated as sans-serif. -/
theorem c4_category_selects_fallback_witness :
    lookup_fallback "weird" weirdTable false = Except.ok
      { font_family :=
          (if weirdEntry.category = "serif" then DEFAULT_SERIF_FONT
            else DEFAULT_SANS_SERIF_FONT).name,
        adjustment := if false then
            some (entry_adjustment weirdEntry
              (if weirdEntry.category = "serif" then DEFAULT_SERIF_FONT
                else DEFAULT_SANS_SERIF_FONT))
          else none } :=
  c4_category_selects_fallback "weird" weirdTable false weirdEntry rfl

/-- C5: when the metrics table loads but the requested family is absent from it after
normalization, the orchestrator emits exactly one diagnostic — warning severity, title
naming the missing font family — and returns the `Error` (spec: `Unavailable`) result. -/
theorem c5_not_found_emits_single_warning (ff : String) (adjust : Bool)
    (metrics : FontMetricsMap) (g : String → Nat → String) (n : Nat)
    (hfind : List.lookup (format_fallback_font_name ff) metrics = none) :
    get_font_fallback { font_family := ff, fallback := none, adjust_font_fallback := adjust }
        (Except.ok metrics) g n =
      (FontFallback.Error,
        [ { title := "Failed to find font override values for font `" ++ ff ++ "`",
            description := "Skipping generating a fallback font.",
            severity := IssueSeverity.Warning } ]) := by
  simp only [get_font_fallback, lookup_fallback, hfind]

/-- Witness for C5: requesting "Missing Font" against a table that only knows "inter"
yields the single warning naming the font and the `Error` result. -/
theorem c5_not_found_emits_single_warning_witness :
    get_font_fallback
        { font_family := "Missing Font", fallback := none, adjust_font_fallback := true }
        (Except.ok interTable) noScope 0 =
      (FontFallback.Error,
        [ { title := "Failed to find font override values for font `" ++ "Missing Font" ++ "`",
            description := "Skipping generating a fallback font.",
            severity := IssueSeverity.Warning } ]) :=
  c5_not_found_emits_single_warning "Missing Font" true interTable noScope 0 rfl

/-- C6: when loading the metrics table fails and no manual fallback list is given, the
orchestrator returns the `Error` (spec: `Unavailable`) result and emits no diagnostic. -/
theorem c6_load_failure_silent_unavailable (ff : String) (adjust : Bool)
    (g : String → Nat → String) (n : Nat) (e : Unit) :
    get_font_fallback { font_family := ff, fallback := none, adjust_font_fallback := adjust }
        (Except.error e) g n = (FontFallback.Error, []) :=
  rfl

/-- C7 (counterexample): with both `units_per_em` positive and both `x_width_avg`
nonzero — the requested one negative, the fallback one positive — the computed
`size_adjust` is negative, refuting the claimed invariant `sizeAdjust > 0`. -/
theorem c7_nonzero_width_counterexample :
    0 < negEntry.units_per_em ∧ 0 < posFallback.units_per_em ∧
    negEntry.x_width_avg ≠ 0 ∧ posFallback.x_width_avg ≠ 0 ∧
    ¬ 0 < (entry_adjustment negEntry posFallback).size_adjust := by
  refine ⟨ ?_, ?_, ?_, ?_, ?_⟩ <;>
    norm_num [negEntry, posFallback, entry_adjustment, calc_font_adjustment]

/-- C7 (amended): whenever both input fonts have `units_per_em > 0` and their
`x_width_avg` values are nonzero with the same sign, the computed `size_adjust` is
strictly positive. -/
theorem c7_same_sign_positive_size_adjust (m : FontMetricsMapEntry)
    (f : DefaultFallbackFont) (hm : 0 < m.units_per_em) (hf : 0 < f.units_per_em)
    (hw : (0 < m.x_width_avg ∧ 0 < f.x_width_avg) ∨
      (m.x_width_avg < 0 ∧ f.x_width_avg < 0)) :
    0 < (entry_adjustment m f).size_adjust := by
  have hm' : (0 : ℚ) < (m.units_per_em : ℚ) := by exact_mod_cast hm
  have hf' : (0 : ℚ) < (f.units_per_em : ℚ) := by exact_mod_cast hf
  show 0 < (m.x_width_avg / (m.units_per_em : ℚ)) / (f.x_width_avg / (f.units_per_em : ℚ))
  rcases hw with ⟨h1, h2⟩ | ⟨h1, h2⟩
  · exact div_pos (div_pos h1 hm') (div_pos h2 hf')
  · exact div_pos_iff.mpr
      (Or.inr ⟨ div_neg_of_neg_of_pos h1 hm', div_neg_of_neg_of_pos h2 hf'⟩)

/-- Witness for the amended C7 on the serif test metrics against the constant serif
fallback font. -/
theorem c7_same_sign_positive_size_adjust_witness :
    0 < (entry_adjustment robotoSlabEntry DEFAULT_SERIF_FONT).size_adjust :=
  c7_same_sign_positive_size_adjust robotoSlabEntry DEFAULT_SERIF_FONT
    (by norm_num [robotoSlabEntry]) (by norm_num [DEFAULT_SERIF_FONT])
    (Or.inl ⟨ by norm_num [robotoSlabEntry], by norm_num [DEFAULT_SERIF_FONT]⟩)

/-- C8: the Adjustment Calculator never signals an error: whenever the requested family
is found, `lookup_fallback` with `adjust` enabled returns `Except.ok` carrying `some`
adjustment that is exactly the raw computed record — with no guard on
`x_width_avg = 0` or on a zero `size_adjust`, so division-by-zero inputs flow through
unsanitized (in this exact-arithmetic model division by zero is total). -/
theorem c8_calculator_total_no_sanitization (ff : String) (map : FontMetricsMap)
    (e : FontMetricsMapEntry)
    (hfind : List.lookup (format_fallback_font_name ff) map = some e) :
    lookup_fallback ff map true = Except.ok
      { font_family :=
          (if e.category = "serif" then DEFAULT_SERIF_FONT else DEFAULT_SANS_SERIF_FONT).name,
        adjustment := some (entry_adjustment e
          (if e.category = "serif" then DEFAULT_SERIF_FONT
            else DEFAULT_SANS_SERIF_FONT)) } := by
  simp [lookup_fallback, hfind]

/-- Witness for C8 at an entry whose `x_width_avg` is zero (so `size_adjust` is zero and
the overrides divide by zero): the lookup still succeeds with `some` adjustment. -/
theorem c8_calculator_total_no_sanitization_witness :
    lookup_fallback "zero" zeroWidthTable true = Except.ok
      { font_family :=
          (if zeroWidthEntry.category = "serif" then DEFAULT_SERIF_FONT
            else DEFAULT_SANS_SERIF_FONT).name,
        adjustment := some (entry_adjustment zeroWidthEntry
          (if zeroWidthEntry.category = "serif" then DEFAULT_SERIF_FONT
            else DEFAULT_SANS_SERIF_FONT)) } :=
  c8_calculator_total_no_sanitization "zero" zeroWidthTable zeroWidthEntry rfl

/-- C9: the Name Normalizer maps "Inter" to "inter" and "Roboto Slab" to "robotoSlab",
and for every input string containing whitespace the output contains no whitespace. -/
theorem c9_normalizer_examples_and_whitespace :
    format_fallback_font_name "Inter" = "inter" ∧
    format_fallback_font_name "Roboto Slab" = "robotoSlab" ∧
    ∀ s : String, (∃ c ∈ s.data, c.isWhitespace) →
      ∀ c ∈ (format_fallback_font_name s).data, c.isWhitespace = false := by
  refine ⟨ rfl, rfl, ?_⟩
  intro s _ c hc
  have hmem : c ∈ List.filter (fun c => !c.isWhitespace)
      (replace_first_match none s.data) := hc
  have hp := (List.mem_filter.mp hmem).2
  simpa using hp

/-- Witness for C9 applied to the whitespace-containing input "a b". -/
theorem c9_normalizer_examples_and_whitespace_witness : ('a').isWhitespace = false :=
  c9_normalizer_examples_and_whitespace.2.2 "a b" ⟨ ' ', by decide, by decide⟩ 'a'
    (by decide)

/-- Helper: a successful `lookup_fallback` always carries the name of one of the two
built-in constant fallback fonts. -/
theorem lookup_fallback_ok_font_family (ff : String) (map : FontMetricsMap)
    (adjust : Bool) (fb : Fallback) (h : lookup_fallback ff map adjust = Except.ok fb) :
    fb.font_family = DEFAULT_SERIF_FONT.name ∨
    fb.font_family = DEFAULT_SANS_SERIF_FONT.name := by
  simp only [lookup_fallback] at h
  split at h
  · exact Except.noConfusion h
  · rename_i e heq
    obtain rfl := (Except.ok.inj h).symm
    rcases eq_or_ne e.category "serif" with hcat | hcat
    · left
      simp [hcat]
    · right
      simp [hcat]

/-- C10: every `Automatic` result the orchestrator produces has a local font family name
equal to the name of one of the two built-in constant fallback fonts, independent of the
metrics-table contents and the adjust flag. -/
theorem c10_automatic_local_family_is_builtin (options : NextFontGoogleOptions)
    (r : Except Unit FontMetricsMap) (g : String → Nat → String) (n : Nat)
    (a : AutomaticFontFallback) (issues : List NextFontIssue)
    (hres : get_font_fallback options r g n = (FontFallback.Automatic a, issues)) :
    a.local_font_family = DEFAULT_SERIF_FONT.name ∨
    a.local_font_family = DEFAULT_SANS_SERIF_FONT.name := by
  simp only [get_font_fallback] at hres
  split at hres
  · exact FontFallback.noConfusion (congrArg Prod.fst hres)
  · split at hres
    · split at hres
      · rename_i fb heq
        rw [Prod.mk.injEq] at hres
        obtain ⟨h1, -⟩ := hres
        obtain rfl := (FontFallback.Automatic.inj h1).symm
        exact lookup_fallback_ok_font_family _ _ _ fb heq
      · exact FontFallback.noConfusion (congrArg Prod.fst hres)
    · exact FontFallback.noConfusion (congrArg Prod.fst hres)

/-- Witness for C10 on a concrete successful automatic resolution. -/
theorem c10_automatic_local_family_is_builtin_witness :
    (AutomaticFontFallback.mk "scoped" "Arial" none).local_font_family =
      DEFAULT_SERIF_FONT.name ∨
    (AutomaticFontFallback.mk "scoped" "Arial" none).local_font_family =
      DEFAULT_SANS_SERIF_FONT.name :=
  c10_automatic_local_family_is_builtin
    { font_family := "Inter", fallback := none, adjust_font_fallback := false }
    (Except.ok interTable) noScope 7 (AutomaticFontFallback.mk "scoped" "Arial" none)
    [] rfl

end NextFontFallback
